import Mathlib

/-!
Shallow embedding of the time-based color computation engines of
`src/server.js` (AquaServer): the daylight curve engine behind
`GET /api/auto-light` and the timer fade engine behind
`GET /api/light-timer-color`.

The source file contains two variants of the daylight endpoint: variant 1
(which looks up the user, applies the stored brightness to every branch,
including the night branch) and variant 2 (which takes no brightness and
returns the raw curve).  Both are embedded below.  The timer engine only
appears in variant 1.

JavaScript numbers are idealised: the timer engine's arithmetic is exact
rational arithmetic, so it is embedded over `ℚ`; the daylight curve uses
`Math.sin`, so it is embedded over `ℝ` with `Real.sin`.  `Math.round`
rounds half away from zero upwards (`Math.round x = ⌊x + 1/2⌋`), which is
exactly Mathlib's `round`.
-/

/-- An RGB triple as produced by the server's JSON color responses. -/
structure RGB where
  r : ℤ
  g : ℤ
  b : ℤ
deriving DecidableEq, Repr

/-- All three channels are integers in `[0, 255]`. -/
def RGB.inRange (c : RGB) : Prop :=
  0 ≤ c.r ∧ c.r ≤ 255 ∧ 0 ≤ c.g ∧ c.g ≤ 255 ∧ 0 ≤ c.b ∧ c.b ≤ 255

instance (c : RGB) : Decidable c.inRange := by
  unfold RGB.inRange
  infer_instance

/-- The `timeToMinutes` helper of `server.js`: an `"HH:MM"` boundary string,
already split into its two numeric fields, is converted to minutes since
midnight as `h * 60 + m`. -/
def timeToMinutes (t : ℕ × ℕ) : ℤ :=
  t.1 * 60 + t.2

/-- The `hexToRgb` helper of `server.js`: the 24-bit integer parsed from the
six hex digits is split into 8-bit channels by shifting and masking
(`>> 16 & 255`, `>> 8 & 255`, `& 255`). -/
def hexToRgb (hex : ℕ) : RGB :=
  ⟨(hex / 2 ^ 16 % 2 ^ 8 : ℕ), (hex / 2 ^ 8 % 2 ^ 8 : ℕ), (hex % 2 ^ 8 : ℕ)⟩

/-- One configured light-timer window, as stored in
`user.settings.timers.lightTimers`: four `"HH:MM"` boundaries (kept as
hour/minute pairs) and a hex color (kept as its parsed 24-bit value). -/
structure Timer where
  fadeIn : ℕ × ℕ
  peakStart : ℕ × ℕ
  peakEnd : ℕ × ℕ
  fadeOut : ℕ × ℕ
  color : ℕ
deriving DecidableEq, Repr

/-- The timer part of a user's settings: the `lightTimerEnabled` flag and
the `lightTimers` list; `none` models a `lightTimers` value that is absent
or not an array (`!Array.isArray(lightTimers)` in the source). -/
structure TimerConfig where
  lightTimerEnabled : Bool
  lightTimers : Option (List Timer)
deriving DecidableEq, Repr

/-- The peak-membership test of the timer loop (`inPeak` in `server.js`):
`(peakStart <= peakEnd && now >= peakStart && now < peakEnd) ||
(peakStart > peakEnd && (now >= peakStart || now < peakEnd))`. -/
def inPeak (peakStart peakEnd nowMins : ℤ) : Prop :=
  (peakStart ≤ peakEnd ∧ peakStart ≤ nowMins ∧ nowMins < peakEnd) ∨
  (peakEnd < peakStart ∧ (peakStart ≤ nowMins ∨ nowMins < peakEnd))

instance (peakStart peakEnd nowMins : ℤ) : Decidable (inPeak peakStart peakEnd nowMins) := by
  unfold inPeak
  infer_instance

/-- Fade-in branch of the timer loop: enters when
`(now - fadeIn + 1440) % 1440 < (peakStart - fadeIn + 1440) % 1440`, and
returns the window's color scaled by progress and brightness. -/
def fadeInPhase (nowMins : ℤ) (brightness : ℕ) (timer : Timer) : Option RGB :=
  let fadeIn := timeToMinutes timer.fadeIn
  let peakStart := timeToMinutes timer.peakStart
  let color := hexToRgb timer.color
  let fadeInDuration := (peakStart - fadeIn + 1440) % 1440
  let fadeInElapsed := (nowMins - fadeIn + 1440) % 1440
  if fadeInElapsed < fadeInDuration then
    let progress : ℚ := (fadeInElapsed : ℚ) / (fadeInDuration : ℚ)
    some ⟨round ((color.r : ℚ) * progress * (brightness : ℚ) / 255),
          round ((color.g : ℚ) * progress * (brightness : ℚ) / 255),
          round ((color.b : ℚ) * progress * (brightness : ℚ) / 255)⟩
  else none

/-- Peak branch of the timer loop: when `inPeak` holds, returns the full
window color scaled by brightness. -/
def peakPhase (nowMins : ℤ) (brightness : ℕ) (timer : Timer) : Option RGB :=
  let peakStart := timeToMinutes timer.peakStart
  let peakEnd := timeToMinutes timer.peakEnd
  let color := hexToRgb timer.color
  if inPeak peakStart peakEnd nowMins then
    some ⟨round ((color.r : ℚ) * (brightness : ℚ) / 255),
          round ((color.g : ℚ) * (brightness : ℚ) / 255),
          round ((color.b : ℚ) * (brightness : ℚ) / 255)⟩
  else none

/-- Fade-out branch of the timer loop: enters when
`(now - peakEnd + 1440) % 1440 < (fadeOut - peakEnd + 1440) % 1440`, and
returns the window's color scaled by `1 - progress` and brightness. -/
def fadeOutPhase (nowMins : ℤ) (brightness : ℕ) (timer : Timer) : Option RGB :=
  let peakEnd := timeToMinutes timer.peakEnd
  let fadeOut := timeToMinutes timer.fadeOut
  let color := hexToRgb timer.color
  let fadeOutDuration := (fadeOut - peakEnd + 1440) % 1440
  let fadeOutElapsed := (nowMins - peakEnd + 1440) % 1440
  if fadeOutElapsed < fadeOutDuration then
    let progress : ℚ := 1 - (fadeOutElapsed : ℚ) / (fadeOutDuration : ℚ)
    some ⟨round ((color.r : ℚ) * progress * (brightness : ℚ) / 255),
          round ((color.g : ℚ) * progress * (brightness : ℚ) / 255),
          round ((color.b : ℚ) * progress * (brightness : ℚ) / 255)⟩
  else none

/-- The last two checks of one loop iteration: the peak check, then the
fade-out check. -/
def peakOrFadeOut (nowMins : ℤ) (brightness : ℕ) (timer : Timer) : Option RGB :=
  match peakPhase nowMins brightness timer with
  | some c => some c
  | none => fadeOutPhase nowMins brightness timer

/-- One iteration of the timer loop over a single window: the fade-in check,
then the peak check, then the fade-out check; `none` when the window does not
contain `now` in any phase. -/
def evalWindow (nowMins : ℤ) (brightness : ℕ) (timer : Timer) : Option RGB :=
  match fadeInPhase nowMins brightness timer with
  | some c => some c
  | none => peakOrFadeOut nowMins brightness timer

/-- The `for (const timer of lightTimers)` loop of
`GET /api/light-timer-color`: the first window containing `now` in one of
its three phases determines the response; `none` when the list is
exhausted. -/
def findTimerColor (nowMins : ℤ) (brightness : ℕ) : List Timer → Option RGB
  | [] => none
  | timer :: rest =>
    match evalWindow nowMins brightness timer with
    | some c => some c
    | none => findTimerColor nowMins brightness rest

/-- The whole timer engine of `GET /api/light-timer-color`: short-circuits
to `none` (the `{color: null}` response) when `lightTimerEnabled` is falsy
or `lightTimers` is not an array, otherwise runs the window loop. -/
def computeTimerColor (nowMins : ℤ) (cfg : TimerConfig) (brightness : ℕ) : Option RGB :=
  if cfg.lightTimerEnabled = false then none
  else
    match cfg.lightTimers with
    | none => none
    | some timers => findTimerColor nowMins brightness timers

/-- The brightness fallback `user.settings.brightness || 255` shared by both
endpoints (lines 88 and 366 of `server.js`): an absent or falsy stored
brightness (in particular `0`) is replaced by full brightness `255`. -/
def effectiveBrightness (stored : Option ℕ) : ℕ :=
  match stored with
  | none => 255
  | some 0 => 255
  | some b => b

/-- The fixed night color of the daylight curve (`{r: 20, g: 20, b: 60}`). -/
def nightColor : RGB := ⟨20, 20, 60⟩

/-- The sunrise anchor color of the daylight curve. -/
def sunriseColor : RGB := ⟨255, 150, 50⟩

/-- The noon anchor color of the daylight curve. -/
def noonColor : RGB := ⟨255, 255, 255⟩

/-- The sunset anchor color of the daylight curve. -/
def sunsetColor : RGB := ⟨255, 100, 100⟩

/-- The intensity hump of the daylight curve at fractional hour `time`:
`angleDeg = (time - 6) / 12 * 180`, `angleRad = angleDeg * π / 180`,
`intensity = sin(angleRad)`. -/
noncomputable def daylightIntensity (time : ℝ) : ℝ :=
  Real.sin ((time - 6) / 12 * 180 * Real.pi / 180)

/-- Sunrise-to-noon interpolation of one channel
(`sunrise + intensity * (noon - sunrise)`, the `time < 12` branch). -/
noncomputable def morningMix (s n : ℤ) (time : ℝ) : ℝ :=
  (s : ℝ) + daylightIntensity time * ((n : ℝ) - (s : ℝ))

/-- Noon-to-sunset interpolation of one channel
(`noon - (1 - intensity) * (noon - sunset)`, the `time >= 12` branch). -/
noncomputable def eveningMix (n su : ℤ) (time : ℝ) : ℝ :=
  (n : ℝ) - (1 - daylightIntensity time) * ((n : ℝ) - (su : ℝ))

/-- The daylight engine of `GET /api/auto-light`, variant 1 of `server.js`
(the variant that looks up the user's brightness): time is the fractional
hour `hour + minute / 60`; outside `[6, 18)` the night color is returned,
scaled by brightness; inside, the sine-interpolated curve color is
returned, scaled by brightness; every channel is rounded to the nearest
integer. -/
noncomputable def computeDaylightColor (time : ℝ) (brightness : ℕ) : RGB :=
  if time < 6 ∨ 18 ≤ time then
    ⟨round (20 * (brightness : ℝ) / 255),
     round (20 * (brightness : ℝ) / 255),
     round (60 * (brightness : ℝ) / 255)⟩
  else
    let r : ℝ := if time < 12 then morningMix sunriseColor.r noonColor.r time
      else eveningMix noonColor.r sunsetColor.r time
    let g : ℝ := if time < 12 then morningMix sunriseColor.g noonColor.g time
      else eveningMix noonColor.g sunsetColor.g time
    let b : ℝ := if time < 12 then morningMix sunriseColor.b noonColor.b time
      else eveningMix noonColor.b sunsetColor.b time
    ⟨round (r * (brightness : ℝ) / 255),
     round (g * (brightness : ℝ) / 255),
     round (b * (brightness : ℝ) / 255)⟩

/-- The daylight engine of `GET /api/auto-light`, variant 2 of `server.js`:
identical curve, but no brightness is looked up or applied anywhere — in
particular the night branch returns the raw `{r: 20, g: 20, b: 60}`. -/
noncomputable def computeDaylightColorV2 (time : ℝ) : RGB :=
  if time < 6 ∨ 18 ≤ time then nightColor
  else
    let r : ℝ := if time < 12 then morningMix sunriseColor.r noonColor.r time
      else eveningMix noonColor.r sunsetColor.r time
    let g : ℝ := if time < 12 then morningMix sunriseColor.g noonColor.g time
      else eveningMix noonColor.g sunsetColor.g time
    let b : ℝ := if time < 12 then morningMix sunriseColor.b noonColor.b time
      else eveningMix noonColor.b sunsetColor.b time
    ⟨round r, round g, round b⟩

/-- A user's light settings as read by the two endpoints: the stored
brightness (if any) and the timer block. -/
structure UserSettings where
  brightness : Option ℕ
  timers : TimerConfig

/-- The color computed by `GET /api/auto-light` (variant 1) for a user at a
given fractional hour: the daylight engine at the user's effective
brightness. -/
noncomputable def autoLightColor (s : UserSettings) (time : ℝ) : RGB :=
  computeDaylightColor time (effectiveBrightness s.brightness)

/-- The color computed by `GET /api/light-timer-color` for a user at a given
minute of the day: the timer engine at the user's effective brightness. -/
def lightTimerColor (s : UserSettings) (nowMins : ℤ) : Option RGB :=
  computeTimerColor nowMins s.timers (effectiveBrightness s.brightness)

/-- The round-trip window of the spec's testable properties:
`fadeIn="06:00", peakStart="07:00", peakEnd="19:00", fadeOut="20:00",
color="#FF9900"` (`0xFF9900 = 16750848`). -/
def roundTripTimer : Timer := ⟨(6, 0), (7, 0), (19, 0), (20, 0), 16750848⟩

/-- An enabled timer config holding only the round-trip window. -/
def roundTripConfig : TimerConfig := ⟨true, some [roundTripTimer]⟩

/-- A window with zero fade-in duration (`fadeInStart = peakStart = 07:00`). -/
def zeroFadeInTimer : Timer := ⟨(7, 0), (7, 0), (19, 0), (20, 0), 16750848⟩

/-- A window with zero fade-out duration (`peakEnd = fadeOutEnd = 19:00`). -/
def zeroFadeOutTimer : Timer := ⟨(6, 0), (7, 0), (19, 0), (19, 0), 16750848⟩

/-- An instantaneous early-morning window (peak 01:00-02:00, no fades) that
matches nothing around midday. -/
def overlapEarly : Timer := ⟨(1, 0), (1, 0), (2, 0), (2, 0), 255⟩

/-- A red window peaking 10:00-14:00, first of the two overlapping windows. -/
def overlapFirst : Timer := ⟨(10, 0), (10, 0), (14, 0), (14, 0), 16711680⟩

/-- A green window peaking 11:00-15:00, overlapping `overlapFirst`. -/
def overlapSecond : Timer := ⟨(11, 0), (11, 0), (15, 0), (15, 0), 65280⟩

/-- The elapsed/duration quantities of the timer loop are computed with
`(x - y + 1440) % 1440`, which is never negative. -/
lemma wrap_nonneg (x y : ℤ) : 0 ≤ (x - y + 1440) % 1440 :=
  Int.emod_nonneg _ (by norm_num)

/-- Helper: the first window of the list whose phases contain `now`
determines `findTimerColor`, whatever comes after it. -/
lemma findTimerColor_first_match (nowMins : ℤ) (brightness : ℕ) (c : RGB)
    (pre : List Timer) (w : Timer) (post : List Timer)
    (hpre : ∀ w' ∈ pre, evalWindow nowMins brightness w' = none)
    (hw : evalWindow nowMins brightness w = some c) :
    findTimerColor nowMins brightness (pre ++ w :: post) = some c := by
  induction pre with
  | nil => simp [findTimerColor, hw]
  | cons p pre ih =>
    have hp : evalWindow nowMins brightness p = none := hpre p (List.mem_cons_self p pre)
    simp only [List.cons_append, findTimerColor, hp]
    exact ih fun w' hw' => hpre w' (List.mem_cons_of_mem p hw')

/-- C4: a window whose fade-in boundary coincides with its peak start has
fade-in duration `(peakStart - fadeIn + 1440) % 1440 = 0`; since the elapsed
value is never negative, the fade-in branch is never entered (no `0/0`
progress is computed) and the window is evaluated by the peak and fade-out
checks alone. -/
theorem fadeIn_zero_duration_skipped (nowMins : ℤ) (brightness : ℕ) (timer : Timer)
    (h : timeToMinutes timer.fadeIn = timeToMinutes timer.peakStart) :
    fadeInPhase nowMins brightness timer = none ∧
    evalWindow nowMins brightness timer = peakOrFadeOut nowMins brightness timer := by
  have hdur : (timeToMinutes timer.peakStart - timeToMinutes timer.fadeIn + 1440) % 1440 = 0 := by
    rw [← h]
    simp
  have hnone : fadeInPhase nowMins brightness timer = none := by
    simp only [fadeInPhase, hdur]
    rw [if_neg (by omega)]
  exact ⟨hnone, by simp only [evalWindow, hnone]⟩

/-- Witness for the zero-fade-in claim at the concrete window
`fadeIn = peakStart = 07:00` and `now = 12:00`. -/
theorem fadeIn_zero_duration_skipped_witness :
    timeToMinutes zeroFadeInTimer.fadeIn = timeToMinutes zeroFadeInTimer.peakStart ∧
    fadeInPhase 720 255 zeroFadeInTimer = none ∧
    evalWindow 720 255 zeroFadeInTimer = peakOrFadeOut 720 255 zeroFadeInTimer :=
  ⟨by decide, (fadeIn_zero_duration_skipped 720 255 zeroFadeInTimer (by decide)).1,
    (fadeIn_zero_duration_skipped 720 255 zeroFadeInTimer (by decide)).2⟩

/-- C10: symmetrically, a window whose fade-out boundary coincides with its
peak end has fade-out duration `0`; the fade-out branch is never entered
(no division by a zero duration), so past the fade-in and peak checks the
window simply yields no match. -/
theorem fadeOut_zero_duration_skipped (nowMins : ℤ) (brightness : ℕ) (timer : Timer)
    (h : timeToMinutes timer.peakEnd = timeToMinutes timer.fadeOut) :
    fadeOutPhase nowMins brightness timer = none ∧
    peakOrFadeOut nowMins brightness timer = peakPhase nowMins brightness timer := by
  have hdur : (timeToMinutes timer.fadeOut - timeToMinutes timer.peakEnd + 1440) % 1440 = 0 := by
    rw [← h]
    simp
  have hnone : fadeOutPhase nowMins brightness timer = none := by
    simp only [fadeOutPhase, hdur]
    rw [if_neg (by omega)]
  refine ⟨hnone, ?_⟩
  rw [peakOrFadeOut]
  cases hp : peakPhase nowMins brightness timer with
  | none => simp [hnone]
  | some c => rfl

/-- Witness for the zero-fade-out claim at the concrete window
`peakEnd = fadeOutEnd = 19:00` and `now = 19:30`. -/
theorem fadeOut_zero_duration_skipped_witness :
    timeToMinutes zeroFadeOutTimer.peakEnd = timeToMinutes zeroFadeOutTimer.fadeOut ∧
    fadeOutPhase 1170 255 zeroFadeOutTimer = none ∧
    peakOrFadeOut 1170 255 zeroFadeOutTimer = peakPhase 1170 255 zeroFadeOutTimer :=
  ⟨by decide, (fadeOut_zero_duration_skipped 1170 255 zeroFadeOutTimer (by decide)).1,
    (fadeOut_zero_duration_skipped 1170 255 zeroFadeOutTimer (by decide)).2⟩

/-- C5: for the midnight-spanning peak interval `peakStart = "22:00"`,
`peakEnd = "02:00"`, the peak classification holds at `now = 23:00` and at
`now = 01:00`, and fails at `now = 12:00`. -/
theorem midnight_wrap_peak_classification :
    inPeak (timeToMinutes (22, 0)) (timeToMinutes (2, 0)) (timeToMinutes (23, 0)) ∧
    inPeak (timeToMinutes (22, 0)) (timeToMinutes (2, 0)) (timeToMinutes (1, 0)) ∧
    ¬inPeak (timeToMinutes (22, 0)) (timeToMinutes (2, 0)) (timeToMinutes (12, 0)) := by
  decide

/-- C6: a disabled timer flag, an absent window list, or an empty window
list each short-circuit the timer engine to the `{color: null}` response. -/
theorem timer_disabled_or_empty_null (nowMins : ℤ) (brightness : ℕ) (cfg : TimerConfig)
    (h : cfg.lightTimerEnabled = false ∨ cfg.lightTimers = none ∨ cfg.lightTimers = some []) :
    computeTimerColor nowMins cfg brightness = none := by
  rcases h with h | h | h
  · simp [computeTimerColor, h]
  · rw [computeTimerColor]
    split
    · rfl
    · rw [h]
  · rw [computeTimerColor]
    split
    · rfl
    · rw [h]
      simp [findTimerColor]

/-- Witness for the short-circuit claim: a disabled config with a nonempty
window list still yields `none` at midday full brightness. -/
theorem timer_disabled_or_empty_null_witness :
    ((⟨false, some [roundTripTimer]⟩ : TimerConfig).lightTimerEnabled = false ∨
      (⟨false, some [roundTripTimer]⟩ : TimerConfig).lightTimers = none ∨
      (⟨false, some [roundTripTimer]⟩ : TimerConfig).lightTimers = some []) ∧
    computeTimerColor 720 ⟨false, some [roundTripTimer]⟩ 255 = none :=
  ⟨Or.inl rfl, timer_disabled_or_empty_null 720 255 ⟨false, some [roundTripTimer]⟩ (Or.inl rfl)⟩

/-- C2: the timer loop runs over the stored window list in order and the
first window whose fade-in, peak, or fade-out phase contains `now`
determines the response; the windows after it — overlapping or not — never
influence the result. -/
theorem first_match_wins (nowMins : ℤ) (brightness : ℕ) (cfg : TimerConfig)
    (pre : List Timer) (w : Timer) (post : List Timer) (c : RGB)
    (henabled : cfg.lightTimerEnabled = true)
    (hlist : cfg.lightTimers = some (pre ++ w :: post))
    (hpre : ∀ w' ∈ pre, evalWindow nowMins brightness w' = none)
    (hw : evalWindow nowMins brightness w = some c) :
    computeTimerColor nowMins cfg brightness = some c := by
  rw [computeTimerColor, if_neg (by rw [henabled]; simp), hlist]
  exact findTimerColor_first_match nowMins brightness c pre w post hpre hw

/-- Witness for first-match-wins: with a non-matching early window followed
by two overlapping midday windows, the response at 12:00 is the first
overlapping window's red, not the second one's green. -/
theorem first_match_wins_witness :
    evalWindow 720 255 overlapEarly = none ∧
    evalWindow 720 255 overlapFirst = some ⟨255, 0, 0⟩ ∧
    computeTimerColor 720 ⟨true, some [overlapEarly, overlapFirst, overlapSecond]⟩ 255 =
      some ⟨255, 0, 0⟩ := by
  have h0 : evalWindow 720 255 overlapEarly = none := by
    norm_num [evalWindow, fadeInPhase, peakOrFadeOut, peakPhase, fadeOutPhase, timeToMinutes,
      hexToRgb, inPeak, overlapEarly]
  have h1 : evalWindow 720 255 overlapFirst = some ⟨255, 0, 0⟩ := by
    norm_num [evalWindow, fadeInPhase, peakOrFadeOut, peakPhase, fadeOutPhase, timeToMinutes,
      hexToRgb, inPeak, overlapFirst, round_eq, Int.floor_eq_iff]
  refine ⟨h0, h1, ?_⟩
  refine first_match_wins 720 255 _ [overlapEarly] overlapFirst [overlapSecond] _ rfl rfl ?_ h1
  intro w' hw'
  rw [List.mem_singleton] at hw'
  rw [hw']
  exact h0

/-- C7: the spec's round-trip example — for the single enabled window
`06:00 → 07:00 → 19:00 → 20:00` with color `#FF9900` at brightness 255, the
engine returns `{128, 77, 0}` at 06:30 (50% fade-in), the full
`{255, 153, 0}` at 12:00 (peak), and `{128, 77, 0}` again at 19:30 (50%
fade-out). -/
theorem round_trip_window :
    computeTimerColor 390 roundTripConfig 255 = some ⟨128, 77, 0⟩ ∧
    computeTimerColor 720 roundTripConfig 255 = some ⟨255, 153, 0⟩ ∧
    computeTimerColor 1170 roundTripConfig 255 = some ⟨128, 77, 0⟩ := by
  refine ⟨?_, ?_, ?_⟩ <;>
    norm_num [computeTimerColor, roundTripConfig, roundTripTimer, findTimerColor, evalWindow,
      fadeInPhase, peakOrFadeOut, peakPhase, fadeOutPhase, timeToMinutes, hexToRgb, inPeak,
      round_eq, Int.floor_eq_iff]

/-- C9: a stored brightness that is absent or falsy (in particular exactly
`0`) is replaced by `255` in both endpoints, so the colors are computed at
full brightness instead of going all-black. -/
theorem brightness_defaults_to_full (s : UserSettings) (time : ℝ) (nowMins : ℤ)
    (h : s.brightness = none ∨ s.brightness = some 0) :
    effectiveBrightness s.brightness = 255 ∧
    autoLightColor s time = computeDaylightColor time 255 ∧
    lightTimerColor s nowMins = computeTimerColor nowMins s.timers 255 := by
  have hb : effectiveBrightness s.brightness = 255 := by
    rcases h with h | h <;> rw [h] <;> rfl
  exact ⟨hb, by rw [autoLightColor, hb], by rw [lightTimerColor, hb]⟩

/-- Witness for the brightness default at a user with stored brightness `0`
and a disabled timer block. -/
theorem brightness_defaults_to_full_witness :
    ((⟨some 0, ⟨false, none⟩⟩ : UserSettings).brightness = none ∨
      (⟨some 0, ⟨false, none⟩⟩ : UserSettings).brightness = some 0) ∧
    effectiveBrightness (⟨some 0, ⟨false, none⟩⟩ : UserSettings).brightness = 255 ∧
    autoLightColor ⟨some 0, ⟨false, none⟩⟩ 12 = computeDaylightColor 12 255 ∧
    lightTimerColor ⟨some 0, ⟨false, none⟩⟩ 720 =
      computeTimerColor 720 (⟨false, none⟩ : TimerConfig) 255 :=
  ⟨Or.inr rfl, (brightness_defaults_to_full ⟨some 0, ⟨false, none⟩⟩ 12 720 (Or.inr rfl)).1,
    (brightness_defaults_to_full ⟨some 0, ⟨false, none⟩⟩ 12 720 (Or.inr rfl)).2.1,
    (brightness_defaults_to_full ⟨some 0, ⟨false, none⟩⟩ 12 720 (Or.inr rfl)).2.2⟩

/-- C1: outside the daylight window, variant 1 returns the night color
`{20, 20, 60}` with every channel scaled by `brightness / 255` and rounded;
variant 2 carries no brightness and coincides with the corrected
always-scale behavior at full brightness, so treated as one corrected
engine the night output is always the brightness-scaled night color. -/
theorem night_color_scaled (brightness : ℕ) (_hb : brightness ≤ 255) (time : ℝ)
    (ht : time < 6 ∨ 18 ≤ time) :
    computeDaylightColor time brightness =
      ⟨round (20 * (brightness : ℝ) / 255), round (20 * (brightness : ℝ) / 255),
        round (60 * (brightness : ℝ) / 255)⟩ ∧
    computeDaylightColorV2 time = computeDaylightColor time 255 := by
  refine ⟨by rw [computeDaylightColor, if_pos ht], ?_⟩
  rw [computeDaylightColorV2, if_pos ht, computeDaylightColor, if_pos ht]
  norm_num [nightColor]

/-- Witness for the scaled night color at `t = 3` (3 AM) and brightness
`128`. -/
theorem night_color_scaled_witness :
    128 ≤ 255 ∧ ((3 : ℝ) < 6 ∨ 18 ≤ (3 : ℝ)) ∧
    computeDaylightColor 3 128 =
      ⟨round (20 * ((128 : ℕ) : ℝ) / 255), round (20 * ((128 : ℕ) : ℝ) / 255),
        round (60 * ((128 : ℕ) : ℝ) / 255)⟩ ∧
    computeDaylightColorV2 3 = computeDaylightColor 3 255 :=
  ⟨by norm_num, by norm_num, (night_color_scaled 128 (by norm_num) 3 (by norm_num)).1,
    (night_color_scaled 128 (by norm_num) 3 (by norm_num)).2⟩

/-- C3: at `t = 12` exactly, the sine intensity is `sin (π/2) = 1`, both the
sunrise-to-noon and the noon-to-sunset interpolation formulas collapse to
the noon channel value — so the curve is continuous at the branch boundary —
and the engine returns `{255, 255, 255}` scaled by brightness, i.e.
`{b, b, b}`. -/
theorem noon_boundary_continuous (brightness : ℕ) :
    (∀ s n : ℤ, morningMix s n 12 = (n : ℝ)) ∧
    (∀ n su : ℤ, eveningMix n su 12 = (n : ℝ)) ∧
    computeDaylightColor 12 brightness =
      ⟨(brightness : ℤ), (brightness : ℤ), (brightness : ℤ)⟩ := by
  have hi : daylightIntensity 12 = 1 := by
    rw [daylightIntensity]
    have harg : ((12 : ℝ) - 6) / 12 * 180 * Real.pi / 180 = Real.pi / 2 := by ring
    rw [harg, Real.sin_pi_div_two]
  have hmorning : ∀ s n : ℤ, morningMix s n 12 = (n : ℝ) := by
    intro s n
    rw [morningMix, hi]
    ring
  have hevening : ∀ n su : ℤ, eveningMix n su 12 = (n : ℝ) := by
    intro n su
    rw [eveningMix, hi]
    ring
  refine ⟨hmorning, hevening, ?_⟩
  rw [computeDaylightColor, if_neg (by norm_num : ¬((12 : ℝ) < 6 ∨ 18 ≤ (12 : ℝ)))]
  simp only [if_neg (lt_irrefl (12 : ℝ)), hevening]
  have h255 : ((noonColor.r : ℝ) * (brightness : ℝ) / 255) = (brightness : ℝ) := by
    norm_num [noonColor]
  have h255g : ((noonColor.g : ℝ) * (brightness : ℝ) / 255) = (brightness : ℝ) := by
    norm_num [noonColor]
  have h255b : ((noonColor.b : ℝ) * (brightness : ℝ) / 255) = (brightness : ℝ) := by
    norm_num [noonColor]
  rw [h255, h255g, h255b, round_natCast]

/-- Helper: `round` of a nonnegative value is nonnegative. -/
lemma round_nonneg_of_nonneg {α : Type*} [LinearOrderedField α] [FloorRing α] {x : α}
    (hx : 0 ≤ x) : 0 ≤ round x := by
  rw [round_eq]
  exact Int.le_floor.mpr (by push_cast; linarith)

/-- Helper: `round` of a value at most `255` is at most `255`. -/
lemma round_le_255 {α : Type*} [LinearOrderedField α] [FloorRing α] {x : α}
    (hx : x ≤ 255) : round x ≤ 255 := by
  rw [round_eq]
  have h : ⌊x + 1 / 2⌋ < 256 := Int.floor_lt.mpr (by push_cast; linarith)
  omega

/-- Helper: the channel formula `round (x * b / 255)` with a channel value
`x ∈ [0, 255]` and a brightness `b ∈ [0, 255]` stays in `[0, 255]`. -/
lemma round_scale_range {α : Type*} [LinearOrderedField α] [FloorRing α] {x b : α}
    (hx0 : 0 ≤ x) (hx : x ≤ 255) (hb0 : 0 ≤ b) (hb : b ≤ 255) :
    0 ≤ round (x * b / 255) ∧ round (x * b / 255) ≤ 255 := by
  have h0 : 0 ≤ x * b / 255 := by positivity
  have h1 : x * b / 255 ≤ 255 := by
    rw [div_le_iff₀ (by norm_num : (0 : α) < 255)]
    nlinarith
  exact ⟨round_nonneg_of_nonneg h0, round_le_255 h1⟩

/-- Helper: every channel extracted by `hexToRgb` lies in `[0, 255]`. -/
lemma hexToRgb_inRange (hex : ℕ) : (hexToRgb hex).inRange := by
  norm_num [hexToRgb, RGB.inRange]
  omega

/-- Helper: a successful fade-in branch produces in-range channels: the
branch guard gives `0 ≤ elapsed < duration`, so the progress fraction lies
in `[0, 1)` and each channel is `round (c * p * b / 255)` with
`c * p ∈ [0, 255]`. -/
lemma fadeInPhase_inRange {nowMins : ℤ} {brightness : ℕ} {timer : Timer} {c : RGB}
    (hb : brightness ≤ 255) (h : fadeInPhase nowMins brightness timer = some c) :
    c.inRange := by
  simp only [fadeInPhase] at h
  split at h
  case isFalse => exact absurd h (by simp)
  case isTrue hlt =>
    obtain ⟨hr0, hr, hg0, hg, hb0', hb'⟩ := hexToRgb_inRange timer.color
    have he : (0 : ℤ) ≤ (nowMins - timeToMinutes timer.fadeIn + 1440) % 1440 := wrap_nonneg _ _
    have hd : (0 : ℤ) < (timeToMinutes timer.peakStart - timeToMinutes timer.fadeIn + 1440) % 1440 :=
      lt_of_le_of_lt he hlt
    set e : ℤ := (nowMins - timeToMinutes timer.fadeIn + 1440) % 1440 with he_def
    set d : ℤ := (timeToMinutes timer.peakStart - timeToMinutes timer.fadeIn + 1440) % 1440
      with hd_def
    have hp0 : (0 : ℚ) ≤ (e : ℚ) / (d : ℚ) :=
      div_nonneg (by exact_mod_cast he) (by exact_mod_cast le_of_lt hd)
    have hp1 : (e : ℚ) / (d : ℚ) ≤ 1 := by
      rw [div_le_one (by exact_mod_cast hd)]
      exact_mod_cast le_of_lt hlt
    have hbq0 : (0 : ℚ) ≤ (brightness : ℚ) := by positivity
    have hbq : (brightness : ℚ) ≤ 255 := by exact_mod_cast hb
    rw [Option.some.injEq] at h
    subst h
    refine ⟨?_, ?_, ?_, ?_, ?_, ?_⟩
    · exact (round_scale_range (mul_nonneg (by exact_mod_cast hr0) hp0)
        (le_trans (mul_le_of_le_one_right (by exact_mod_cast hr0) hp1) (by exact_mod_cast hr))
        hbq0 hbq).1
    · exact (round_scale_range (mul_nonneg (by exact_mod_cast hr0) hp0)
        (le_trans (mul_le_of_le_one_right (by exact_mod_cast hr0) hp1) (by exact_mod_cast hr))
        hbq0 hbq).2
    · exact (round_scale_range (mul_nonneg (by exact_mod_cast hg0) hp0)
        (le_trans (mul_le_of_le_one_right (by exact_mod_cast hg0) hp1) (by exact_mod_cast hg))
        hbq0 hbq).1
    · exact (round_scale_range (mul_nonneg (by exact_mod_cast hg0) hp0)
        (le_trans (mul_le_of_le_one_right (by exact_mod_cast hg0) hp1) (by exact_mod_cast hg))
        hbq0 hbq).2
    · exact (round_scale_range (mul_nonneg (by exact_mod_cast hb0') hp0)
        (le_trans (mul_le_of_le_one_right (by exact_mod_cast hb0') hp1) (by exact_mod_cast hb'))
        hbq0 hbq).1
    · exact (round_scale_range (mul_nonneg (by exact_mod_cast hb0') hp0)
        (le_trans (mul_le_of_le_one_right (by exact_mod_cast hb0') hp1) (by exact_mod_cast hb'))
        hbq0 hbq).2

/-- Helper: a successful peak branch produces in-range channels: each is
`round (c * b / 255)` with `c ∈ [0, 255]` from `hexToRgb`. -/
lemma peakPhase_inRange {nowMins : ℤ} {brightness : ℕ} {timer : Timer} {c : RGB}
    (hb : brightness ≤ 255) (h : peakPhase nowMins brightness timer = some c) :
    c.inRange := by
  simp only [peakPhase] at h
  split at h
  case isFalse => exact absurd h (by simp)
  case isTrue =>
    obtain ⟨hr0, hr, hg0, hg, hb0', hb'⟩ := hexToRgb_inRange timer.color
    have hbq0 : (0 : ℚ) ≤ (brightness : ℚ) := by positivity
    have hbq : (brightness : ℚ) ≤ 255 := by exact_mod_cast hb
    rw [Option.some.injEq] at h
    subst h
    exact ⟨(round_scale_range (by exact_mod_cast hr0) (by exact_mod_cast hr) hbq0 hbq).1,
      (round_scale_range (by exact_mod_cast hr0) (by exact_mod_cast hr) hbq0 hbq).2,
      (round_scale_range (by exact_mod_cast hg0) (by exact_mod_cast hg) hbq0 hbq).1,
      (round_scale_range (by exact_mod_cast hg0) (by exact_mod_cast hg) hbq0 hbq).2,
      (round_scale_range (by exact_mod_cast hb0') (by exact_mod_cast hb') hbq0 hbq).1,
      (round_scale_range (by exact_mod_cast hb0') (by exact_mod_cast hb') hbq0 hbq).2⟩

/-- Helper: a successful fade-out branch produces in-range channels: the
branch guard again gives `0 ≤ elapsed < duration`, so `1 - elapsed/duration`
lies in `(0, 1]`. -/
lemma fadeOutPhase_inRange {nowMins : ℤ} {brightness : ℕ} {timer : Timer} {c : RGB}
    (hb : brightness ≤ 255) (h : fadeOutPhase nowMins brightness timer = some c) :
    c.inRange := by
  simp only [fadeOutPhase] at h
  split at h
  case isFalse => exact absurd h (by simp)
  case isTrue hlt =>
    obtain ⟨hr0, hr, hg0, hg, hb0', hb'⟩ := hexToRgb_inRange timer.color
    have he : (0 : ℤ) ≤ (nowMins - timeToMinutes timer.peakEnd + 1440) % 1440 := wrap_nonneg _ _
    have hd : (0 : ℤ) < (timeToMinutes timer.fadeOut - timeToMinutes timer.peakEnd + 1440) % 1440 :=
      lt_of_le_of_lt he hlt
    set e : ℤ := (nowMins - timeToMinutes timer.peakEnd + 1440) % 1440 with he_def
    set d : ℤ := (timeToMinutes timer.fadeOut - timeToMinutes timer.peakEnd + 1440) % 1440
      with hd_def
    have hq0 : (0 : ℚ) ≤ (e : ℚ) / (d : ℚ) :=
      div_nonneg (by exact_mod_cast he) (by exact_mod_cast le_of_lt hd)
    have hq1 : (e : ℚ) / (d : ℚ) ≤ 1 := by
      rw [div_le_one (by exact_mod_cast hd)]
      exact_mod_cast le_of_lt hlt
    have hp0 : (0 : ℚ) ≤ 1 - (e : ℚ) / (d : ℚ) := by linarith
    have hp1 : 1 - (e : ℚ) / (d : ℚ) ≤ 1 := by linarith
    have hbq0 : (0 : ℚ) ≤ (brightness : ℚ) := by positivity
    have hbq : (brightness : ℚ) ≤ 255 := by exact_mod_cast hb
    rw [Option.some.injEq] at h
    subst h
    refine ⟨?_, ?_, ?_, ?_, ?_, ?_⟩
    · exact (round_scale_range (mul_nonneg (by exact_mod_cast hr0) hp0)
        (le_trans (mul_le_of_le_one_right (by exact_mod_cast hr0) hp1) (by exact_mod_cast hr))
        hbq0 hbq).1
    · exact (round_scale_range (mul_nonneg (by exact_mod_cast hr0) hp0)
        (le_trans (mul_le_of_le_one_right (by exact_mod_cast hr0) hp1) (by exact_mod_cast hr))
        hbq0 hbq).2
    · exact (round_scale_range (mul_nonneg (by exact_mod_cast hg0) hp0)
        (le_trans (mul_le_of_le_one_right (by exact_mod_cast hg0) hp1) (by exact_mod_cast hg))
        hbq0 hbq).1
    · exact (round_scale_range (mul_nonneg (by exact_mod_cast hg0) hp0)
        (le_trans (mul_le_of_le_one_right (by exact_mod_cast hg0) hp1) (by exact_mod_cast hg))
        hbq0 hbq).2
    · exact (round_scale_range (mul_nonneg (by exact_mod_cast hb0') hp0)
        (le_trans (mul_le_of_le_one_right (by exact_mod_cast hb0') hp1) (by exact_mod_cast hb'))
        hbq0 hbq).1
    · exact (round_scale_range (mul_nonneg (by exact_mod_cast hb0') hp0)
        (le_trans (mul_le_of_le_one_right (by exact_mod_cast hb0') hp1) (by exact_mod_cast hb'))
        hbq0 hbq).2

/-- Helper: any color produced by a single window is in range. -/
lemma evalWindow_inRange {nowMins : ℤ} {brightness : ℕ} {timer : Timer} {c : RGB}
    (hb : brightness ≤ 255) (h : evalWindow nowMins brightness timer = some c) :
    c.inRange := by
  rw [evalWindow] at h
  cases hfi : fadeInPhase nowMins brightness timer with
  | some c' =>
    rw [hfi] at h
    rw [Option.some.injEq] at h
    subst h
    exact fadeInPhase_inRange hb hfi
  | none =>
    rw [hfi, peakOrFadeOut] at h
    cases hpk : peakPhase nowMins brightness timer with
    | some c' =>
      rw [hpk] at h
      rw [Option.some.injEq] at h
      subst h
      exact peakPhase_inRange hb hpk
    | none =>
      rw [hpk] at h
      exact fadeOutPhase_inRange hb h

/-- Helper: any color produced by the window loop is in range. -/
lemma findTimerColor_inRange {nowMins : ℤ} {brightness : ℕ} {c : RGB}
    (hb : brightness ≤ 255) :
    ∀ {timers : List Timer}, findTimerColor nowMins brightness timers = some c → c.inRange := by
  intro timers
  induction timers with
  | nil => intro h; exact absurd h (by simp [findTimerColor])
  | cons timer rest ih =>
    intro h
    rw [findTimerColor] at h
    cases hw : evalWindow nowMins brightness timer with
    | some c' =>
      rw [hw] at h
      rw [Option.some.injEq] at h
      subst h
      exact evalWindow_inRange hb hw
    | none =>
      rw [hw] at h
      exact ih h

/-- Helper: any color produced by the timer engine is in range. -/
lemma computeTimerColor_inRange {nowMins : ℤ} {cfg : TimerConfig} {brightness : ℕ} {c : RGB}
    (hb : brightness ≤ 255) (h : computeTimerColor nowMins cfg brightness = some c) :
    c.inRange := by
  rw [computeTimerColor] at h
  split at h
  · exact absurd h (by simp)
  · cases hl : cfg.lightTimers with
    | none => rw [hl] at h; exact absurd h (by simp)
    | some timers => rw [hl] at h; exact findTimerColor_inRange hb h

/-- Helper: inside the daylight window the sine intensity lies in `[0, 1]`:
the angle `(t - 6)/12 * 180 * π / 180 = (t - 6) * π / 12` lies in `[0, π)`. -/
lemma daylightIntensity_mem {time : ℝ} (h6 : 6 ≤ time) (h18 : time < 18) :
    0 ≤ daylightIntensity time ∧ daylightIntensity time ≤ 1 := by
  rw [daylightIntensity]
  have harg : (time - 6) / 12 * 180 * Real.pi / 180 = (time - 6) * (Real.pi / 12) := by ring
  rw [harg]
  refine ⟨Real.sin_nonneg_of_nonneg_of_le_pi ?_ ?_, Real.sin_le_one _⟩
  · have hpi : 0 < Real.pi := Real.pi_pos
    nlinarith
  · have hpi : 0 < Real.pi := Real.pi_pos
    nlinarith

/-- Helper: the sunrise-to-noon interpolation of a channel stays between the
(ordered, in-range) anchor values. -/
lemma morningMix_mem (s n : ℤ) {time : ℝ} (hs : 0 ≤ s) (hsn : s ≤ n) (hn : n ≤ 255)
    (h6 : 6 ≤ time) (h18 : time < 18) :
    0 ≤ morningMix s n time ∧ morningMix s n time ≤ 255 := by
  obtain ⟨hi0, hi1⟩ := daylightIntensity_mem h6 h18
  rw [morningMix]
  have hs' : (0 : ℝ) ≤ (s : ℝ) := by exact_mod_cast hs
  have hsn' : ((s : ℤ) : ℝ) ≤ (n : ℝ) := by exact_mod_cast hsn
  have hn' : ((n : ℤ) : ℝ) ≤ 255 := by exact_mod_cast hn
  constructor <;> nlinarith

/-- Helper: the noon-to-sunset interpolation of a channel stays between the
(ordered, in-range) anchor values. -/
lemma eveningMix_mem (n su : ℤ) {time : ℝ} (hsu : 0 ≤ su) (hsun : su ≤ n) (hn : n ≤ 255)
    (h6 : 6 ≤ time) (h18 : time < 18) :
    0 ≤ eveningMix n su time ∧ eveningMix n su time ≤ 255 := by
  obtain ⟨hi0, hi1⟩ := daylightIntensity_mem h6 h18
  rw [eveningMix]
  have hsu' : (0 : ℝ) ≤ (su : ℝ) := by exact_mod_cast hsu
  have hsun' : ((su : ℤ) : ℝ) ≤ (n : ℝ) := by exact_mod_cast hsun
  have hn' : ((n : ℤ) : ℝ) ≤ 255 := by exact_mod_cast hn
  constructor <;> nlinarith

/-- Helper: every color produced by the daylight engine at a brightness in
`[0, 255]` has all channels in `[0, 255]`. -/
lemma computeDaylightColor_inRange (time : ℝ) {brightness : ℕ} (hb : brightness ≤ 255) :
    (computeDaylightColor time brightness).inRange := by
  have hb0 : (0 : ℝ) ≤ (brightness : ℝ) := by positivity
  have hb' : (brightness : ℝ) ≤ 255 := by exact_mod_cast hb
  rw [computeDaylightColor]
  split
  · exact ⟨(round_scale_range (by norm_num) (by norm_num) hb0 hb').1,
      (round_scale_range (by norm_num) (by norm_num) hb0 hb').2,
      (round_scale_range (by norm_num) (by norm_num) hb0 hb').1,
      (round_scale_range (by norm_num) (by norm_num) hb0 hb').2,
      (round_scale_range (by norm_num) (by norm_num) hb0 hb').1,
      (round_scale_range (by norm_num) (by norm_num) hb0 hb').2⟩
  · next ht =>
    push_neg at ht
    have h6 : 6 ≤ time := ht.1
    have h18 : time < 18 := ht.2
    by_cases h12 : time < 12
    · simp only [if_pos h12]
      obtain ⟨hr0, hr1⟩ := morningMix_mem sunriseColor.r noonColor.r
        (by norm_num [sunriseColor]) (by norm_num [sunriseColor, noonColor])
        (by norm_num [noonColor]) h6 h18
      obtain ⟨hg0, hg1⟩ := morningMix_mem sunriseColor.g noonColor.g
        (by norm_num [sunriseColor]) (by norm_num [sunriseColor, noonColor])
        (by norm_num [noonColor]) h6 h18
      obtain ⟨hbl0, hbl1⟩ := morningMix_mem sunriseColor.b noonColor.b
        (by norm_num [sunriseColor]) (by norm_num [sunriseColor, noonColor])
        (by norm_num [noonColor]) h6 h18
      exact ⟨(round_scale_range hr0 hr1 hb0 hb').1, (round_scale_range hr0 hr1 hb0 hb').2,
        (round_scale_range hg0 hg1 hb0 hb').1, (round_scale_range hg0 hg1 hb0 hb').2,
        (round_scale_range hbl0 hbl1 hb0 hb').1, (round_scale_range hbl0 hbl1 hb0 hb').2⟩
    · simp only [if_neg h12]
      obtain ⟨hr0, hr1⟩ := eveningMix_mem noonColor.r sunsetColor.r
        (by norm_num [sunsetColor]) (by norm_num [sunsetColor, noonColor])
        (by norm_num [noonColor]) h6 h18
      obtain ⟨hg0, hg1⟩ := eveningMix_mem noonColor.g sunsetColor.g
        (by norm_num [sunsetColor]) (by norm_num [sunsetColor, noonColor])
        (by norm_num [noonColor]) h6 h18
      obtain ⟨hbl0, hbl1⟩ := eveningMix_mem noonColor.b sunsetColor.b
        (by norm_num [sunsetColor]) (by norm_num [sunsetColor, noonColor])
        (by norm_num [noonColor]) h6 h18
      exact ⟨(round_scale_range hr0 hr1 hb0 hb').1, (round_scale_range hr0 hr1 hb0 hb').2,
        (round_scale_range hg0 hg1 hb0 hb').1, (round_scale_range hg0 hg1 hb0 hb').2,
        (round_scale_range hbl0 hbl1 hb0 hb').1, (round_scale_range hbl0 hbl1 hb0 hb').2⟩

/-- C8: for any brightness in `[0, 255]`, every color either engine
produces has all three channels as integers in `[0, 255]`: the daylight
output at any time of day is in range, and so is any color the timer engine
returns. -/
theorem outputs_in_range (brightness : ℕ) (time : ℝ) (nowMins : ℤ) (cfg : TimerConfig)
    (c : RGB) (hb : brightness ≤ 255) :
    (computeDaylightColor time brightness).inRange ∧
    (computeTimerColor nowMins cfg brightness = some c → c.inRange) :=
  ⟨computeDaylightColor_inRange time hb, fun h => computeTimerColor_inRange hb h⟩

/-- Witness for the range claim at brightness 128, night time `t = 3`, and
the round-trip window mid-fade at 06:30 (whose output is `{64, 38, 0}`). -/
theorem outputs_in_range_witness :
    128 ≤ 255 ∧
    computeTimerColor 390 roundTripConfig 128 = some ⟨64, 38, 0⟩ ∧
    (computeDaylightColor 3 128).inRange ∧ RGB.inRange ⟨64, 38, 0⟩ := by
  have h : computeTimerColor 390 roundTripConfig 128 = some ⟨64, 38, 0⟩ := by
    norm_num [computeTimerColor, roundTripConfig, roundTripTimer, findTimerColor, evalWindow,
      fadeInPhase, peakOrFadeOut, peakPhase, fadeOutPhase, timeToMinutes, hexToRgb, inPeak,
      round_eq, Int.floor_eq_iff]
  exact ⟨by norm_num, h,
    (outputs_in_range 128 3 390 roundTripConfig ⟨64, 38, 0⟩ (by norm_num)).1,
    (outputs_in_range 128 3 390 roundTripConfig ⟨64, 38, 0⟩ (by norm_num)).2 h⟩
